import Mathlib

/-!
Verification development for the form-viber repository.

Part 1 embeds the server-side submission validator of the POST route
(`src/app/api/forms/[formId]/submit/route.ts` — the loop that strips unknown
keys and validates each field of `form.fields` against the submitted `data`
object, accumulating error strings).

Part 2 embeds the agent orchestrator `createAgent(...).run` from
`src/lib/agentBuilder.ts` (sandbox acquisition, backend call, metadata merge,
observability tracking, and best-effort sandbox cleanup), with the calls made
to the external dependencies recorded in an event trace.
-/

/-- A JavaScript/JSON value as seen by the validator: `undef` stands for the
JS `undefined` (absent property), `null` for JS `null`. -/
inductive JVal : Type where
  | undef : JVal
  | null : JVal
  | bool : Bool → JVal
  | num : Int → JVal
  | str : String → JVal
  | arr : List JVal → JVal
  | obj : List (String × JVal) → JVal

/-- JS property read `m[k]` on an object represented as an association list:
a missing key reads as `undefined`. -/
def jsGet : List (String × JVal) → String → JVal
  | [], _ => JVal.undef
  | (k', v) :: rest, k => if k' = k then v else jsGet rest k

/-- JS object-spread update `{...m, k: v}`: replaces the binding of `k` in
place if present (JS objects keep first-insertion order), else appends it. -/
def setKey : List (String × JVal) → String → JVal → List (String × JVal)
  | [], k, v => [(k, v)]
  | (k', v') :: rest, k, v =>
    if k' = k then (k, v) :: rest else (k', v') :: setKey rest k v

/-- `value === undefined`. -/
def isUndef : JVal → Bool
  | .undef => true
  | _ => false

/-- `value === null`. -/
def isNull : JVal → Bool
  | .null => true
  | _ => false

/-- `typeof value === "boolean"`. -/
def isBool : JVal → Bool
  | .bool _ => true
  | _ => false

/-- `typeof value === "string"`. -/
def isStr : JVal → Bool
  | .str _ => true
  | _ => false

/-- `Array.isArray(value)`. -/
def isArr : JVal → Bool
  | .arr _ => true
  | _ => false

/-- `Array.isArray(value) && value.length !== 0`. -/
def isNonEmptyArr : JVal → Bool
  | .arr (_ :: _) => true
  | _ => false

/-- The route's missing-value test `value === undefined || value === null ||
value === ""`. -/
def isMissing : JVal → Bool
  | .undef => true
  | .null => true
  | .str s => s == ""
  | _ => false

/-- `typeof entry === "object" && entry !== null`: in JS both plain objects
and arrays have `typeof` `"object"`; `null` is ruled out by the explicit
comparison. -/
def isObjLike : JVal → Bool
  | .obj _ => true
  | .arr _ => true
  | _ => false

/-- Property read on a dynamic-form entry value: string-keyed reads on a
non-object (including an array holding no such key) give `undefined`. -/
def entryGet : JVal → String → JVal
  | .obj m, k => jsGet m k
  | _, _ => JVal.undef

/-- One `{value, label}` pair of a dropdown's `options`. -/
structure OptionPair : Type where
  value : String
  label : String

/-- The `type` of a nested field inside a dynamic field (`fields` entries of
the `FormField` interface): dynamic fields cannot nest. -/
inductive NestedFieldType : Type where
  | text | date | dropdown | checkbox
deriving DecidableEq

/-- A nested field of a dynamic form field (the inline `fields` element type
of the `FormField` interface in `src/lib/firestore.ts`). -/
structure NestedField : Type where
  id : String
  type : NestedFieldType
  label : String
  required : Option Bool
  placeholder : Option String
  options : Option (List OptionPair)

/-- The `type` of a top-level form field. -/
inductive FieldType : Type where
  | text | date | dropdown | checkbox | dynamic
deriving DecidableEq

/-- A top-level form field (the `FormField` interface in
`src/lib/firestore.ts`). -/
structure FormField : Type where
  id : String
  type : FieldType
  label : String
  required : Option Bool
  placeholder : Option String
  options : Option (List OptionPair)
  fields : Option (List NestedField)

/-- The nested-field type `switch` of the route (messages carry the group
label and the 1-based entry number). -/
def nestedTypeErrors (gl : String) (nf : NestedField) (i : Nat) (v : JVal) :
    List String :=
  let lbl := nf.label
  let entryNo := toString (i + 1)
  match nf.type with
  | .checkbox =>
    if isBool v then []
    else [gl ++ " - " ++ lbl ++ " must be a boolean for entry " ++ entryNo]
  | .text =>
    if isStr v then []
    else [gl ++ " - " ++ lbl ++ " must be a string for entry " ++ entryNo]
  | .date =>
    if isStr v then []
    else [gl ++ " - " ++ lbl ++ " must be a date string for entry " ++ entryNo]
  | .dropdown =>
    match v with
    | .str s =>
      match nf.options with
      | some opts =>
        if opts.any (fun o => o.value == s) then []
        else [gl ++ " - " ++ lbl ++
          " must be one of the allowed options for entry " ++ entryNo]
      | none => []
    | _ => [gl ++ " - " ++ lbl ++ " must be a string for entry " ++ entryNo]

/-- The body of the route's inner loop for one nested field of one entry:
required check first (with `continue` on violation), then — only when the
value is present and non-empty — the type `switch`. -/
def nestedFieldErrors (gl : String) (i : Nat) (nf : NestedField)
    (entry : JVal) : List String :=
  let v := entryGet entry nf.id
  if nf.required.getD false && isMissing v then
    [gl ++ " - " ++ nf.label ++ " is required for entry " ++ toString (i + 1)]
  else if !(isMissing v) then nestedTypeErrors gl nf i v
  else []

/-- The route's inner `for (const nestedField of field.fields)` loop, pushing
onto the shared `errors` accumulator. -/
def nestedLoop (gl : String) (i : Nat) (entry : JVal) (acc : List String) :
    List NestedField → List String
  | [] => acc
  | nf :: rest => nestedLoop gl i entry (acc ++ nestedFieldErrors gl i nf entry) rest

/-- The route's `for (let i = 0; i < value.length; i++)` loop over dynamic
entries: a non-object entry gets one error and is skipped (`continue`),
otherwise every nested field of the entry is checked. -/
def entriesLoop (gl : String) (nfs : List NestedField) (acc : List String)
    (i : Nat) : List JVal → List String
  | [] => acc
  | entry :: rest =>
    if !(isObjLike entry) then
      entriesLoop gl nfs
        (acc ++ [gl ++ " entry " ++ toString (i + 1) ++ " must be an object"])
        (i + 1) rest
    else entriesLoop gl nfs (nestedLoop gl i entry acc nfs) (i + 1) rest

/-- The route's handling of a `dynamic` field: required check (non-array or
empty array → "<label> is required" and `continue`), then either the entries
loop (array value with declared nested fields) or, for a present non-null
non-array value, "<label> must be an array". -/
def dynamicFieldErrors (f : FormField) (value : JVal) : List String :=
  if f.required.getD false && !(isNonEmptyArr value) then
    [f.label ++ " is required"]
  else
    match value, f.fields with
    | .arr entries, some nfs => entriesLoop f.label nfs [] 0 entries
    | _, _ =>
      if !(isUndef value) && !(isNull value) && !(isArr value) then
        [f.label ++ " must be an array"]
      else []

/-- The top-level type `switch` for non-dynamic fields. -/
def scalarTypeErrors (f : FormField) (v : JVal) : List String :=
  match f.type with
  | .checkbox => if isBool v then [] else [f.label ++ " must be a boolean"]
  | .text => if isStr v then [] else [f.label ++ " must be a string"]
  | .date => if isStr v then [] else [f.label ++ " must be a date string"]
  | .dropdown =>
    match v with
    | .str s =>
      match f.options with
      | some opts =>
        if opts.any (fun o => o.value == s) then []
        else [f.label ++ " must be one of the allowed options"]
      | none => []
    | _ => [f.label ++ " must be a string"]
  | .dynamic => []

/-- Required check then type check for a non-dynamic field (the code after
the `dynamic` branch of the route's field loop). -/
def scalarFieldErrors (f : FormField) (v : JVal) : List String :=
  if f.required.getD false && isMissing v then [f.label ++ " is required"]
  else if !(isMissing v) then scalarTypeErrors f v
  else []

/-- The errors contributed by one field of `form.fields` for its submitted
value `data[field.id]`. -/
def fieldErrors (f : FormField) (v : JVal) : List String :=
  if f.type == FieldType.dynamic then dynamicFieldErrors f v
  else scalarFieldErrors f v

/-- The route's outer `for (const field of form.fields)` loop, accumulating
into the shared `errors` array. -/
def fieldsLoop (data : List (String × JVal)) (acc : List String) :
    List FormField → List String
  | [] => acc
  | f :: rest => fieldsLoop data (acc ++ fieldErrors f (jsGet data f.id)) rest

/-- The unknown-key stripping pass: every key of `data` whose id is not the
id of some field is deleted (order of the surviving keys preserved). -/
def stripUnknown (fields : List FormField) (data : List (String × JVal)) :
    List (String × JVal) :=
  data.filter (fun kv => fields.any (fun f => f.id == kv.1))

/-- The validation core of the POST route: strip unknown keys from the
submitted object, then validate every field; returns the accepted (stripped)
values — which are persisted when the error list is empty — together with
the accumulated error list. -/
def validateSubmission (fields : List FormField) (data : List (String × JVal)) :
    List (String × JVal) × List String :=
  let cleaned := stripUnknown fields data
  (cleaned, fieldsLoop cleaned [] fields)

/-! ### Part 2: the agent orchestrator `createAgent(...).run` -/

/-- `AgentDefinition.sandboxConfig` (all fields optional). -/
structure SandboxConfig : Type where
  cpu : Option Int
  memoryGb : Option Int
  diskGb : Option Int
  autoStopMinutes : Option Int
  ephemeral : Option Bool

/-- `AgentDefinition`: system prompt plus optional sandbox requirement and
configuration. -/
structure AgentDefinition : Type where
  systemPrompt : String
  requiresSandbox : Option Bool
  sandboxConfig : Option SandboxConfig

/-- `AgentInput`: the user's text plus an optional context record. -/
structure AgentInput : Type where
  text : String
  context : Option (List (String × JVal))

/-- `AgentOutput`: response text, optional raw model response, optional
metadata record. -/
structure AgentOutput : Type where
  text : String
  rawModelResponse : Option JVal
  metadata : Option (List (String × JVal))

/-- The handle returned by `daytona.createSandbox`. -/
structure Sandbox : Type where
  id : String

/-- Errors thrown by the orchestrator or its dependencies, identified by
their message. -/
abbrev AgentErr := String

/-- The message of the error thrown when `requiresSandbox` is set but no
Daytona manager was supplied. -/
def sandboxRequiredMsg : AgentErr :=
  "Agent requires a sandbox, but no DaytonaSandboxManager was provided."

/-- The `DaytonaSandboxManager` dependency: each method is modelled as a
function returning either a value or a thrown error. -/
structure DaytonaSandboxManager : Type where
  createSandbox : Option SandboxConfig → Except AgentErr Sandbox
  stopSandbox : String → Except AgentErr Unit

/-- The parameter record of `observability.trackAgentCall`. -/
structure TrackParams : Type where
  definition : AgentDefinition
  input : AgentInput
  output : Option AgentOutput
  error : Option AgentErr
  durationMs : Int
  sandboxId : Option String

/-- The `ObservabilityClient` dependency. -/
structure ObservabilityClient : Type where
  trackAgentCall : TrackParams → Except AgentErr Unit

/-- The `GeminiExecutor` dependency (`run({systemPrompt, input})`, curried). -/
structure GeminiExecutor : Type where
  run : String → AgentInput → Except AgentErr AgentOutput

/-- The `AgentDeps` record: required Gemini executor, optional Daytona
manager, optional observability client. -/
structure AgentDeps : Type where
  gemini : GeminiExecutor
  daytona : Option DaytonaSandboxManager
  observability : Option ObservabilityClient

/-- One call made by a run to an external dependency, in order. -/
inductive Event : Type where
  | createSandboxCall : Option SandboxConfig → Event
  | geminiCall : String → AgentInput → Event
  | trackCall : TrackParams → Event
  | stopSandboxCall : String → Event

/-- The ids passed to `daytona.stopSandbox`, in call order. -/
def stopCalls (evs : List Event) : List String :=
  evs.filterMap (fun e => match e with
    | .stopSandboxCall sid => some sid
    | _ => none)

/-- The inputs passed to `gemini.run`, in call order. -/
def geminiCalls (evs : List Event) : List (String × AgentInput) :=
  evs.filterMap (fun e => match e with
    | .geminiCall sp inp => some (sp, inp)
    | _ => none)

/-- The parameter records passed to `observability.trackAgentCall`, in call
order. -/
def trackCalls (evs : List Event) : List TrackParams :=
  evs.filterMap (fun e => match e with
    | .trackCall p => some p
    | _ => none)

/-- The configs passed to `daytona.createSandbox`, in call order. -/
def createCalls (evs : List Event) : List (Option SandboxConfig) :=
  evs.filterMap (fun e => match e with
    | .createSandboxCall c => some c
    | _ => none)

/-- The result of one `run`: the settled promise (returned output or thrown
error), the trace of dependency calls, and the value of the object the
caller passed as `input` once the run has settled. -/
structure RunResult : Type where
  outcome : Except AgentErr AgentOutput
  events : List Event
  callerInputAfter : AgentInput

/-- The derived input built on successful acquisition:
`input = { ...input, context: { ...(input.context ?? {}), sandboxId } }` —
a fresh object; the local `input` binding is redirected to it, the caller's
object is untouched. -/
def enrichInput (input : AgentInput) (sandboxId : String) : AgentInput :=
  { input with
    context := some (setKey (input.context.getD []) "sandboxId" (JVal.str sandboxId)) }

/-- The `finally` block of `run`, guarded by `if (sandboxId && daytona)`:
`sandboxId` is a JS string-or-undefined, so the guard is truthy only when an
id was recorded AND that id is a non-empty string AND a Daytona manager
exists; then `stopSandbox` is called once, its outcome swallowed
(`catch {}`) and never altering the settled result. An empty-string id is
falsy in JS, so cleanup is skipped for it. -/
def agentFinally (deps : AgentDeps) (sandboxId : Option String)
    (events : List Event) (outcome : Except AgentErr AgentOutput) :
    Except AgentErr AgentOutput × List Event :=
  match sandboxId, deps.daytona with
  | some sid, some _ =>
    if sid = "" then (outcome, events)
    else (outcome, events ++ [Event.stopSandboxCall sid])
  | _, _ => (outcome, events)

/-- The `catch` block of `run`: compute the duration from a fresh clock
sample, call `trackAgentCall` with the error when a client is configured
(swallowing any error it throws), then rethrow the original error through
the `finally` block. -/
def agentCatch (definition : AgentDefinition) (deps : AgentDeps)
    (clock : Nat → Int) (input : AgentInput) (sandboxId : Option String)
    (events : List Event) (clockIdx : Nat) (e : AgentErr) :
    Except AgentErr AgentOutput × List Event :=
  let durationMs := clock clockIdx - clock 0
  let events' :=
    match deps.observability with
    | none => events
    | some _ =>
      events ++ [Event.trackCall
        { definition := definition, input := input, output := none,
          error := some e, durationMs := durationMs, sandboxId := sandboxId }]
  agentFinally deps sandboxId events' (Except.error e)

/-- The body of `run` after the sandbox phase: call Gemini; on success merge
`{durationMs, sandboxId}` into the output's metadata and (when configured)
call `trackAgentCall` — that success-path call is NOT guarded, so an error
it throws falls into the `catch` block; on Gemini failure go to the `catch`
block. -/
def agentAfterAcquire (definition : AgentDefinition) (deps : AgentDeps)
    (clock : Nat → Int) (input : AgentInput) (sandboxId : Option String)
    (events : List Event) : Except AgentErr AgentOutput × List Event :=
  let events := events ++ [Event.geminiCall definition.systemPrompt input]
  match deps.gemini.run definition.systemPrompt input with
  | .error e => agentCatch definition deps clock input sandboxId events 1 e
  | .ok out0 =>
    let durationMs := clock 1 - clock 0
    let sandboxIdVal := match sandboxId with
      | some sid => JVal.str sid
      | none => JVal.undef
    let output : AgentOutput :=
      { out0 with
        metadata := some (setKey
          (setKey (out0.metadata.getD []) "durationMs" (JVal.num durationMs))
          "sandboxId" sandboxIdVal) }
    match deps.observability with
    | none => agentFinally deps sandboxId events (Except.ok output)
    | some obs =>
      let p : TrackParams :=
        { definition := definition, input := input, output := some output,
          error := none, durationMs := durationMs, sandboxId := sandboxId }
      let events := events ++ [Event.trackCall p]
      match obs.trackAgentCall p with
      | .ok _ => agentFinally deps sandboxId events (Except.ok output)
      | .error e => agentCatch definition deps clock input sandboxId events 2 e

/-- `createAgent(definition, deps).run(input0)`, with `clock n` the value of
the n-th `Date.now()` sample of the run. The caller's `input` object is
never written through — the sandbox id is bound into a derived copy — so the
value the caller still holds after the run is `input0` itself. -/
def runAgent (definition : AgentDefinition) (deps : AgentDeps)
    (clock : Nat → Int) (input0 : AgentInput) : RunResult :=
  let core :=
    match definition.requiresSandbox.getD false with
    | false => agentAfterAcquire definition deps clock input0 none []
    | true =>
      match deps.daytona with
      | none => agentCatch definition deps clock input0 none [] 1 sandboxRequiredMsg
      | some d =>
        let events := [Event.createSandboxCall definition.sandboxConfig]
        match d.createSandbox definition.sandboxConfig with
        | .error e => agentCatch definition deps clock input0 none events 1 e
        | .ok sandbox =>
          let input1 := enrichInput input0 sandbox.id
          agentAfterAcquire definition deps clock input1 (some sandbox.id) events
  { outcome := core.1, events := core.2, callerInputAfter := input0 }

/-! ### Concrete instances used by counterexamples and witnesses -/

/-- A required dynamic field with an empty nested-field list. -/
def c3field : FormField :=
  { id := "g", type := .dynamic, label := "G", required := some true,
    placeholder := none, options := none, fields := some [] }

/-- A required nested text field. -/
def c7nested : NestedField :=
  { id := "email", type := .text, label := "Email", required := some true,
    placeholder := none, options := none }

/-- A required dynamic field with two nested children. -/
def c8field : FormField :=
  { id := "members", type := .dynamic, label := "Members", required := some true,
    placeholder := none, options := none,
    fields := some [{ id := "email", type := .text, label := "Email",
                      required := some true, placeholder := none, options := none }] }

/-- A required checkbox field. -/
def c10field : FormField :=
  { id := "ok", type := .checkbox, label := "Accept", required := some true,
    placeholder := none, options := none, fields := none }

/-- A required text field (known key "name"). -/
def c6field : FormField :=
  { id := "name", type := .text, label := "Name", required := some true,
    placeholder := none, options := none, fields := none }

/-- A fixed backend output with no metadata. -/
def okOutput : AgentOutput :=
  { text := "out", rawModelResponse := none, metadata := none }

/-- A Gemini executor that always succeeds with `okOutput`. -/
def geminiOk : GeminiExecutor := { run := fun _ _ => Except.ok okOutput }

/-- An observability client that always succeeds. -/
def obsOk : ObservabilityClient := { trackAgentCall := fun _ => Except.ok () }

/-- An observability client that throws on success records (no `error` in
the params) and succeeds on failure records. -/
def obsFailOnSuccess : ObservabilityClient :=
  { trackAgentCall := fun p =>
      match p.error with
      | none => Except.error "sink boom"
      | some _ => Except.ok () }

/-- A Daytona manager whose sandboxes are all "sb1" and whose operations
succeed. -/
def daytonaOk : DaytonaSandboxManager :=
  { createSandbox := fun _ => Except.ok { id := "sb1" },
    stopSandbox := fun _ => Except.ok () }

/-- A clock frozen at 0. -/
def zeroClock : Nat → Int := fun _ => 0

/-- A clock that reads 0 at the first sample and 5 afterwards. -/
def laterClock : Nat → Int := fun n => if n == 0 then 0 else 5

/-- A plain input with no context. -/
def inputHi : AgentInput := { text := "hi", context := none }

/-- An agent definition that does not require a sandbox. -/
def defNoSandbox : AgentDefinition :=
  { systemPrompt := "sp", requiresSandbox := none, sandboxConfig := none }

/-- An agent definition that requires a sandbox (no config). -/
def defSandbox : AgentDefinition :=
  { systemPrompt := "sp", requiresSandbox := some true, sandboxConfig := none }

/-- Backend metadata that already carries a `durationMs` entry. -/
def c5meta : List (String × JVal) :=
  [("durationMs", JVal.num 999), ("note", JVal.str "n")]

/-- A backend output carrying `c5meta`. -/
def c5out : AgentOutput :=
  { text := "out", rawModelResponse := none, metadata := some c5meta }

/-- A Gemini executor that always succeeds with `c5out`. -/
def c5gemini : GeminiExecutor := { run := fun _ _ => Except.ok c5out }

/-- Dependencies for the C5 counterexample run. -/
def c5deps : AgentDeps :=
  { gemini := c5gemini, daytona := some daytonaOk, observability := none }

/-- The output the C5 counterexample run returns: the backend's own
`durationMs` entry has been overwritten by the runner's elapsed time. -/
def c5merged : AgentOutput :=
  { text := "out", rawModelResponse := none,
    metadata := some [("durationMs", JVal.num 5), ("note", JVal.str "n"),
      ("sandboxId", JVal.str "sb1")] }

/-- Dependencies for the C1 failing run: backend succeeds, sink throws on
the success record. -/
def c1deps : AgentDeps :=
  { gemini := geminiOk, daytona := none, observability := some obsFailOnSuccess }

/-- Dependencies for the C2 counterexample run: sandbox required but no
Daytona manager; a sink is configured. -/
def c2deps : AgentDeps :=
  { gemini := geminiOk, daytona := none, observability := some obsOk }

/-- Dependencies with a working Daytona manager and a working sink. -/
def fullDeps : AgentDeps :=
  { gemini := geminiOk, daytona := some daytonaOk, observability := some obsOk }

/-- A Gemini executor that always fails. -/
def geminiFail : GeminiExecutor := { run := fun _ _ => Except.error "backend boom" }

/-- Dependencies with a working Daytona manager, a failing backend and a
working sink. -/
def failDeps : AgentDeps :=
  { gemini := geminiFail, daytona := some daytonaOk, observability := some obsOk }

/-- A Daytona manager whose sandboxes all get the empty-string id (falsy in
JS) and whose operations succeed. -/
def daytonaEmptyId : DaytonaSandboxManager :=
  { createSandbox := fun _ => Except.ok { id := "" },
    stopSandbox := fun _ => Except.ok () }

/-- Dependencies with the empty-id Daytona manager, a failing backend and a
working sink. -/
def emptyIdDeps : AgentDeps :=
  { gemini := geminiFail, daytona := some daytonaEmptyId,
    observability := some obsOk }

/-! ### Helper lemmas -/

theorem jsGet_setKey_self (m : List (String × JVal)) (k : String) (v : JVal) :
    jsGet (setKey m k v) k = v := by
  induction m with
  | nil => simp [setKey, jsGet]
  | cons kv rest ih =>
    obtain ⟨k', v'⟩ := kv
    by_cases h : k' = k
    · subst h; simp [setKey, jsGet]
    · simp [setKey, jsGet, h, ih]

theorem jsGet_setKey_other (m : List (String × JVal)) (k k' : String)
    (v : JVal) (h : k' ≠ k) : jsGet (setKey m k v) k' = jsGet m k' := by
  induction m with
  | nil => simp [setKey, jsGet, Ne.symm h]
  | cons kv rest ih =>
    obtain ⟨k₀, v₀⟩ := kv
    by_cases h0 : k₀ = k
    · subst h0
      simp [setKey, jsGet, Ne.symm h]
    · by_cases h1 : k₀ = k'
      · subst h1; simp [setKey, jsGet, h0]
      · simp [setKey, jsGet, h0, h1, ih]

theorem nestedTypeErrors_length (gl : String) (nf : NestedField) (i : Nat)
    (v : JVal) : (nestedTypeErrors gl nf i v).length ≤ 1 := by
  rcases nf with ⟨nid, ty, lbl, req, ph, opts⟩
  cases ty <;> cases v <;>
    simp only [nestedTypeErrors, isBool, isStr] <;>
    try simp
  all_goals (cases opts <;> simp only [] <;> try simp)
  all_goals (split <;> simp)

theorem nestedFieldErrors_length (gl : String) (i : Nat) (nf : NestedField)
    (entry : JVal) : (nestedFieldErrors gl i nf entry).length ≤ 1 := by
  simp only [nestedFieldErrors]
  split
  · simp
  · split
    · exact nestedTypeErrors_length gl nf i _
    · simp

theorem nestedLoop_eq (gl : String) (i : Nat) (entry : JVal)
    (nfs : List NestedField) (acc : List String) :
    nestedLoop gl i entry acc nfs =
      acc ++ nfs.flatMap (fun nf => nestedFieldErrors gl i nf entry) := by
  induction nfs generalizing acc with
  | nil => simp [nestedLoop]
  | cons nf rest ih => simp [nestedLoop, ih, List.flatMap_cons]

/-! ### Claim theorems: validator -/

/-- C7: the inner loop over a dynamic field's nested fields visits every
child (appending each child's errors to the shared accumulator — no early
stop), each child contributes at most one error per entry pass, and once a
child is found missing/required only the required-message fires (its type is
not additionally checked in that pass). -/
theorem nested_loop_visits_all_at_most_one (gl : String) (i : Nat)
    (entry : JVal) :
    (∀ (nfs : List NestedField) (acc : List String),
      nestedLoop gl i entry acc nfs =
        acc ++ nfs.flatMap (fun nf => nestedFieldErrors gl i nf entry))
    ∧ (∀ nf : NestedField, (nestedFieldErrors gl i nf entry).length ≤ 1)
    ∧ (∀ nf : NestedField, nf.required.getD false = true →
        isMissing (entryGet entry nf.id) = true →
        nestedFieldErrors gl i nf entry =
          [gl ++ " - " ++ nf.label ++ " is required for entry " ++
            toString (i + 1)]) := by
  refine ⟨fun nfs acc => nestedLoop_eq gl i entry nfs acc,
    fun nf => nestedFieldErrors_length gl i nf entry, fun nf hreq hmiss => ?_⟩
  simp [nestedFieldErrors, hreq, hmiss]

/-- Witness for C7 at a concrete required nested field and an entry lacking
its key. -/
theorem nested_loop_visits_all_at_most_one_witness :
    nestedFieldErrors "G" 0 c7nested (JVal.obj []) =
      ["G - Email is required for entry 1"] := by
  have h := (nested_loop_visits_all_at_most_one "G" 0 (JVal.obj [])).2.2
    c7nested rfl rfl
  exact h.trans rfl

/-- C8: a required dynamic (group) field whose value is absent or the empty
array contributes exactly the one error "<label> is required", whatever its
nested children are — the children are never descended into. -/
theorem group_required_empty_single_error (f : FormField) (v : JVal)
    (htype : f.type = FieldType.dynamic)
    (hreq : f.required.getD false = true)
    (hv : v = JVal.undef ∨ v = JVal.arr []) :
    fieldErrors f v = [f.label ++ " is required"] := by
  rcases hv with h | h <;> subst h <;>
    simp [fieldErrors, dynamicFieldErrors, htype, hreq, isNonEmptyArr]

/-- Witness for C8: the concrete required group field with one required
child, for both the absent and the empty-array value. -/
theorem group_required_empty_single_error_witness :
    fieldErrors c8field JVal.undef = ["Members is required"] ∧
    fieldErrors c8field (JVal.arr []) = ["Members is required"] := by
  constructor
  · exact (group_required_empty_single_error c8field JVal.undef rfl rfl
      (Or.inl rfl)).trans rfl
  · exact (group_required_empty_single_error c8field (JVal.arr []) rfl rfl
      (Or.inr rfl)).trans rfl

/-- C3 as stated is false on the code: for a REQUIRED dynamic field, a
present, non-null, non-array value yields "<label> is required" (the
required branch fires first and `continue`s), not "<label> must be an
array". -/
theorem group_required_nonarray_message_cex :
    fieldErrors c3field (JVal.str "x") = ["G is required"] ∧
    fieldErrors c3field (JVal.str "x") ≠ ["G must be an array"] := by
  constructor
  · rfl
  · decide

/-- C3 amended: a present, non-null, non-array value of a dynamic field
yields "<label> must be an array" when the field is NOT required; when it is
required, the required branch fires first and the message is "<label> is
required" instead. -/
theorem group_nonarray_message (f : FormField) (v : JVal)
    (htype : f.type = FieldType.dynamic)
    (hu : isUndef v = false) (hn : isNull v = false) (ha : isArr v = false) :
    fieldErrors f v =
      if f.required.getD false then [f.label ++ " is required"]
      else [f.label ++ " must be an array"] := by
  by_cases hr : f.required.getD false
  · cases v <;> simp_all [fieldErrors, dynamicFieldErrors, isUndef, isNull,
      isArr, isNonEmptyArr]
  · cases v <;> simp_all [fieldErrors, dynamicFieldErrors, isUndef, isNull,
      isArr, isNonEmptyArr]

/-- Witness for C3 (amended) at the concrete required group field and a
string value. -/
theorem group_nonarray_message_witness :
    fieldErrors c3field (JVal.str "x") = ["G is required"] ∧
    fieldErrors { c3field with required := none } (JVal.str "x") =
      ["G must be an array"] := by
  constructor
  · exact (group_nonarray_message c3field (JVal.str "x") rfl rfl rfl rfl).trans rfl
  · exact (group_nonarray_message { c3field with required := none }
      (JVal.str "x") rfl rfl rfl rfl).trans rfl

/-- C10: a required checkbox field with submitted value `false` passes
validation with no error: the required check only rejects `undefined`,
`null` and the empty string, and `false` is a boolean. -/
theorem checkbox_required_false_passes (f : FormField)
    (htype : f.type = FieldType.checkbox)
    (_hreq : f.required.getD false = true) :
    fieldErrors f (JVal.bool false) = [] := by
  simp [fieldErrors, htype, scalarFieldErrors, isMissing, scalarTypeErrors,
    isBool]

/-- Witness for C10 at the concrete required checkbox field. -/
theorem checkbox_required_false_passes_witness :
    fieldErrors c10field (JVal.bool false) = [] :=
  checkbox_required_false_passes c10field rfl rfl

theorem stripUnknown_filter (fields : List FormField)
    (data : List (String × JVal)) (key : String)
    (h : ∀ f ∈ fields, f.id ≠ key) :
    stripUnknown fields (data.filter (fun kv => !(kv.1 == key))) =
      stripUnknown fields data := by
  unfold stripUnknown
  rw [List.filter_filter]
  refine List.filter_congr ?_
  intro kv _
  by_cases hk : kv.1 = key
  · have hany : fields.any (fun f => f.id == kv.1) = false := by
      rw [List.any_eq_false]
      intro f hf
      simp [hk, h f hf]
    simp [hany]
  · simp [hk]

/-- C6: submitted keys that match no field id are silently dropped: they
never appear in the accepted values, and removing such a key from the
submission changes no validation error. -/
theorem unknown_keys_stripped_silently (fields : List FormField)
    (data : List (String × JVal)) (key : String)
    (h : ∀ f ∈ fields, f.id ≠ key) :
    (∀ kv ∈ (validateSubmission fields data).1, kv.1 ≠ key)
    ∧ (validateSubmission fields (data.filter (fun kv => !(kv.1 == key)))).2 =
      (validateSubmission fields data).2 := by
  constructor
  · intro kv hkv hkk
    have : kv ∈ data ∧ fields.any (fun f => f.id == kv.1) = true := by
      simpa [validateSubmission, stripUnknown, List.mem_filter] using hkv
    rcases List.any_eq_true.mp this.2 with ⟨f, hf, hid⟩
    exact h f hf (by simpa [hkk] using hid)
  · unfold validateSubmission
    simp only
    rw [stripUnknown_filter fields data key h]

/-- Witness for C6 at a one-field form and a submission with the unknown key
"extra". -/
theorem unknown_keys_stripped_silently_witness :
    (validateSubmission [c6field]
        (List.filter (fun kv => !(kv.1 == "extra"))
          [("name", JVal.str "A"), ("extra", JVal.str "B")])).2 =
      (validateSubmission [c6field]
        [("name", JVal.str "A"), ("extra", JVal.str "B")]).2 :=
  (unknown_keys_stripped_silently [c6field]
    [("name", JVal.str "A"), ("extra", JVal.str "B")] "extra"
    (by intro f hf; simp [c6field] at hf; subst hf; simp [c6field])).2

theorem stopCalls_append (a b : List Event) :
    stopCalls (a ++ b) = stopCalls a ++ stopCalls b :=
  List.filterMap_append a b _

theorem geminiCalls_append (a b : List Event) :
    geminiCalls (a ++ b) = geminiCalls a ++ geminiCalls b :=
  List.filterMap_append a b _

theorem trackCalls_append (a b : List Event) :
    trackCalls (a ++ b) = trackCalls a ++ trackCalls b :=
  List.filterMap_append a b _

theorem agentFinally_fst (deps : AgentDeps) (sid : Option String)
    (evs : List Event) (out : Except AgentErr AgentOutput) :
    (agentFinally deps sid evs out).1 = out := by
  unfold agentFinally
  split
  · split <;> rfl
  · rfl

theorem agentCatch_fst (definition : AgentDefinition) (deps : AgentDeps)
    (clock : Nat → Int) (inp : AgentInput) (sid : Option String)
    (evs : List Event) (idx : Nat) (e : AgentErr) :
    (agentCatch definition deps clock inp sid evs idx e).1 = Except.error e := by
  unfold agentCatch
  split <;> exact agentFinally_fst ..

theorem stopCalls_agentFinally (deps : AgentDeps) (sid : Option String)
    (evs : List Event) (out : Except AgentErr AgentOutput) :
    stopCalls (agentFinally deps sid evs out).2 =
      stopCalls evs ++
        (match sid, deps.daytona with
         | some s, some _ => if s = "" then [] else [s]
         | _, _ => []) := by
  unfold agentFinally
  split
  · split
    · simp_all
    · rw [stopCalls_append]; simp_all [stopCalls, List.filterMap]
  · simp_all

/-- C1 is the spec's intent, but the code violates it: when the backend
succeeds and the sink's success-record call throws, the run rejects with
the sink's error instead of returning the backend's output (the
success-path `trackAgentCall` is not wrapped in try/catch). This theorem
evaluates the run at the failing input: the backend returns `okOutput`,
yet the caller receives the sink's error. -/
theorem agent_success_sink_error_surfaced :
    geminiOk.run "sp" inputHi = Except.ok okOutput
    ∧ (runAgent defNoSandbox c1deps zeroClock inputHi).outcome =
        Except.error "sink boom" := by
  constructor
  · rfl
  · rfl

/-- C2's "no observability call" is false on the code: when acquisition
fails (here: sandbox required, no Daytona manager) and a sink is
configured, the catch block records the failure with the sink exactly
once before rethrowing. -/
theorem agent_acquisition_failure_tracks_observability_cex :
    (trackCalls (runAgent defSandbox c2deps zeroClock inputHi).events).length = 1
    ∧ (runAgent defSandbox c2deps zeroClock inputHi).outcome =
        Except.error sandboxRequiredMsg := by
  constructor
  · rfl
  · rfl

/-- C2 amended: when acquisition fails — sandbox required but no manager
supplied, or `createSandbox` throws — the acquisition error propagates to
the caller, no backend call and no teardown call happen, but (unlike the
claim) one observability failure-record call IS made when a sink is
configured (none otherwise), its own errors being swallowed. -/
theorem agent_acquisition_failure_propagates (definition : AgentDefinition)
    (deps : AgentDeps) (clock : Nat → Int) (input0 : AgentInput) (e : AgentErr)
    (hreq : definition.requiresSandbox.getD false = true)
    (hacq : (deps.daytona = none ∧ e = sandboxRequiredMsg)
        ∨ (∃ dm, deps.daytona = some dm ∧
            dm.createSandbox definition.sandboxConfig = Except.error e)) :
    (runAgent definition deps clock input0).outcome = Except.error e
    ∧ geminiCalls (runAgent definition deps clock input0).events = []
    ∧ stopCalls (runAgent definition deps clock input0).events = []
    ∧ (trackCalls (runAgent definition deps clock input0).events).length =
        (if deps.observability.isSome then 1 else 0)
    ∧ (∀ p ∈ trackCalls (runAgent definition deps clock input0).events,
        p.error = some e ∧ p.output = none) := by
  rcases hacq with ⟨hday, he⟩ | ⟨dm, hday, hcreate⟩
  · subst he
    cases hobs : deps.observability <;>
      simp [runAgent, hreq, hday, agentCatch, agentFinally, hobs,
        geminiCalls, stopCalls, trackCalls]
  · cases hobs : deps.observability <;>
      simp [runAgent, hreq, hday, hcreate, agentCatch, agentFinally, hobs,
        geminiCalls, stopCalls, trackCalls]

/-- Witness for C2 (amended) at the concrete no-manager run. -/
theorem agent_acquisition_failure_propagates_witness :
    (runAgent defSandbox c2deps zeroClock inputHi).outcome =
        Except.error sandboxRequiredMsg
    ∧ geminiCalls (runAgent defSandbox c2deps zeroClock inputHi).events = []
    ∧ stopCalls (runAgent defSandbox c2deps zeroClock inputHi).events = [] := by
  have h := agent_acquisition_failure_propagates defSandbox c2deps zeroClock
    inputHi sandboxRequiredMsg rfl (Or.inl ⟨rfl, rfl⟩)
  exact ⟨h.1, h.2.1, h.2.2.1⟩

/-- C4 amended: when acquisition succeeds and the backend call throws, the
caller receives the backend's original error — whatever the sink or
`stopSandbox` do (their errors are swallowed) — and `stopSandbox` is called
exactly once with the acquired sandbox's id provided that id is non-empty;
for an empty-string id the falsy JS guard `if (sandboxId && daytona)` skips
the cleanup call entirely. -/
theorem agent_backend_failure_release_once (definition : AgentDefinition)
    (deps : AgentDeps) (dm : DaytonaSandboxManager) (sb : Sandbox)
    (clock : Nat → Int) (input0 : AgentInput) (e : AgentErr)
    (hreq : definition.requiresSandbox.getD false = true)
    (hday : deps.daytona = some dm)
    (hcreate : dm.createSandbox definition.sandboxConfig = Except.ok sb)
    (hgem : deps.gemini.run definition.systemPrompt (enrichInput input0 sb.id) =
      Except.error e) :
    (runAgent definition deps clock input0).outcome = Except.error e
    ∧ (sb.id ≠ "" →
        stopCalls (runAgent definition deps clock input0).events = [sb.id])
    ∧ (sb.id = "" →
        stopCalls (runAgent definition deps clock input0).events = []) := by
  refine ⟨?_, fun hid => ?_, fun hid => ?_⟩
  · by_cases hid : sb.id = ""
    · have hgem2 := hgem
      rw [hid] at hgem2
      cases hobs : deps.observability <;>
        simp [runAgent, hreq, hday, hcreate, agentAfterAcquire, hgem2,
          agentCatch, agentFinally, hobs, hid]
    · cases hobs : deps.observability <;>
        simp [runAgent, hreq, hday, hcreate, agentAfterAcquire, hgem,
          agentCatch, agentFinally, hobs, hid]
  · cases hobs : deps.observability <;>
      simp [runAgent, hreq, hday, hcreate, agentAfterAcquire, hgem, agentCatch,
        agentFinally, hobs, hid, stopCalls]
  · have hgem2 := hgem
    rw [hid] at hgem2
    cases hobs : deps.observability <;>
      simp [runAgent, hreq, hday, hcreate, agentAfterAcquire, hgem2,
        agentCatch, agentFinally, hobs, hid, stopCalls]

/-- C4's "release invoked exactly once with the acquired handle's id" fails
on the code when the provisioner hands back a handle whose id is the empty
string: the `finally` guard `if (sandboxId && daytona)` is falsy for `""`,
so `stopSandbox` is never called on that run, though the backend's error
still reaches the caller. -/
theorem agent_backend_failure_release_skipped_cex :
    daytonaEmptyId.createSandbox defSandbox.sandboxConfig =
        Except.ok { id := "" }
    ∧ (runAgent defSandbox emptyIdDeps zeroClock inputHi).outcome =
        Except.error "backend boom"
    ∧ stopCalls (runAgent defSandbox emptyIdDeps zeroClock inputHi).events =
        [] :=
  ⟨rfl, rfl, rfl⟩

/-- Witness for C4 (amended): required sandbox, working manager with a
non-empty sandbox id, failing backend. -/
theorem agent_backend_failure_release_once_witness :
    (runAgent defSandbox failDeps zeroClock inputHi).outcome =
        Except.error "backend boom"
    ∧ stopCalls (runAgent defSandbox failDeps zeroClock inputHi).events =
        ["sb1"] := by
  have h := agent_backend_failure_release_once defSandbox failDeps daytonaOk
    { id := "sb1" } zeroClock inputHi "backend boom" rfl rfl rfl rfl
  exact ⟨h.1, h.2.1 (by decide)⟩

/-- C5 as stated is false on the code in one point: the metadata merge
`{...metadata, durationMs, sandboxId}` overwrites a `durationMs` (or
`sandboxId`) entry the backend had already set. Concrete run: the backend
sets `durationMs` to 999, the elapsed time is 5, and the returned metadata
carries 5 — the backend's entry was not preserved. -/
theorem agent_metadata_merge_overwrite_cex :
    (runAgent defSandbox c5deps laterClock inputHi).outcome = Except.ok c5merged
    ∧ jsGet c5meta "durationMs" = JVal.num 999
    ∧ jsGet (c5merged.metadata.getD []) "durationMs" = JVal.num 5
    ∧ JVal.num 5 ≠ JVal.num 999 := by
  refine ⟨rfl, rfl, rfl, ?_⟩
  intro h
  injection h with h5
  exact absurd h5 (by decide)

/-- C5 amended: when acquisition and the backend succeed (and the sink, if
configured, does not throw — see C1), the run returns the backend's output
with `durationMs ≥ 0` (for a monotone clock) and `sandboxId` equal to the
acquired id merged into its metadata; every metadata entry at a key OTHER
than `durationMs` and `sandboxId` is preserved (those two are overwritten),
and `stopSandbox` is called exactly once with the acquired id provided that
id is non-empty (the falsy JS guard skips cleanup for an empty id, see the
C4 counterexample). -/
theorem agent_success_metadata_release (definition : AgentDefinition)
    (deps : AgentDeps) (dm : DaytonaSandboxManager) (sb : Sandbox)
    (out : AgentOutput) (clock : Nat → Int) (input0 : AgentInput)
    (hreq : definition.requiresSandbox.getD false = true)
    (hday : deps.daytona = some dm)
    (hcreate : dm.createSandbox definition.sandboxConfig = Except.ok sb)
    (hgem : deps.gemini.run definition.systemPrompt (enrichInput input0 sb.id) =
      Except.ok out)
    (hobs : deps.observability = none
        ∨ ∃ obs, deps.observability = some obs
            ∧ ∀ p, obs.trackAgentCall p = Except.ok ())
    (hclock : clock 0 ≤ clock 1) :
    ∃ m, (runAgent definition deps clock input0).outcome =
        Except.ok { out with metadata := some m }
    ∧ jsGet m "durationMs" = JVal.num (clock 1 - clock 0)
    ∧ 0 ≤ clock 1 - clock 0
    ∧ jsGet m "sandboxId" = JVal.str sb.id
    ∧ (∀ k, k ≠ "durationMs" → k ≠ "sandboxId" →
        jsGet m k = jsGet (out.metadata.getD []) k)
    ∧ (sb.id ≠ "" →
        stopCalls (runAgent definition deps clock input0).events = [sb.id]) := by
  refine ⟨setKey (setKey (out.metadata.getD []) "durationMs"
      (JVal.num (clock 1 - clock 0))) "sandboxId" (JVal.str sb.id),
    ?_, ?_, ?_, ?_, ?_, ?_⟩
  · rcases hobs with hobs | ⟨obs, hobs, htr⟩
    · by_cases hid : sb.id = ""
      · have hgem2 := hgem
        rw [hid] at hgem2
        simp [runAgent, hreq, hday, hcreate, agentAfterAcquire, hgem2,
          agentFinally, hobs, hid]
      · simp [runAgent, hreq, hday, hcreate, agentAfterAcquire, hgem,
          agentFinally, hobs, hid]
    · by_cases hid : sb.id = ""
      · have hgem2 := hgem
        rw [hid] at hgem2
        simp [runAgent, hreq, hday, hcreate, agentAfterAcquire, hgem2,
          agentFinally, hobs, htr, hid]
      · simp [runAgent, hreq, hday, hcreate, agentAfterAcquire, hgem,
          agentFinally, hobs, htr, hid]
  · rw [jsGet_setKey_other _ _ _ _ (by decide), jsGet_setKey_self]
  · omega
  · rw [jsGet_setKey_self]
  · intro k hk1 hk2
    rw [jsGet_setKey_other _ _ _ _ hk2, jsGet_setKey_other _ _ _ _ hk1]
  · intro hid
    rcases hobs with hobs | ⟨obs, hobs, htr⟩
    · simp [runAgent, hreq, hday, hcreate, agentAfterAcquire, hgem,
        agentFinally, hobs, hid, stopCalls]
    · simp [runAgent, hreq, hday, hcreate, agentAfterAcquire, hgem,
        agentFinally, hobs, htr, hid, stopCalls]

/-- Witness for C5 (amended) at the concrete successful run. -/
theorem agent_success_metadata_release_witness :
    (runAgent defSandbox c5deps laterClock inputHi).outcome = Except.ok c5merged
    ∧ stopCalls (runAgent defSandbox c5deps laterClock inputHi).events = ["sb1"] := by
  have h := agent_success_metadata_release defSandbox c5deps daytonaOk
    ⟨"sb1"⟩ c5out laterClock inputHi rfl rfl rfl rfl (Or.inl rfl) (by decide)
  obtain ⟨m, _, _, _, _, _, h6⟩ := h
  exact ⟨rfl, h6 (by decide)⟩

theorem geminiCalls_agentFinally (deps : AgentDeps) (sid : Option String)
    (evs : List Event) (out : Except AgentErr AgentOutput) :
    geminiCalls (agentFinally deps sid evs out).2 = geminiCalls evs := by
  unfold agentFinally
  split
  · split
    · rfl
    · rw [geminiCalls_append]; simp [geminiCalls, List.filterMap]
  · rfl

theorem geminiCalls_agentCatch (definition : AgentDefinition)
    (deps : AgentDeps) (clock : Nat → Int) (inp : AgentInput)
    (sid : Option String) (evs : List Event) (idx : Nat) (e : AgentErr) :
    geminiCalls (agentCatch definition deps clock inp sid evs idx e).2 =
      geminiCalls evs := by
  unfold agentCatch
  dsimp only
  split
  · exact geminiCalls_agentFinally ..
  · rw [geminiCalls_agentFinally, geminiCalls_append]
    simp [geminiCalls, List.filterMap]

theorem geminiCalls_agentAfterAcquire (definition : AgentDefinition)
    (deps : AgentDeps) (clock : Nat → Int) (inp : AgentInput)
    (sid : Option String) (evs : List Event) :
    geminiCalls (agentAfterAcquire definition deps clock inp sid evs).2 =
      geminiCalls evs ++ [(definition.systemPrompt, inp)] := by
  unfold agentAfterAcquire
  dsimp only
  split
  · rw [geminiCalls_agentCatch, geminiCalls_append]
    simp [geminiCalls, List.filterMap]
  · split
    · rw [geminiCalls_agentFinally, geminiCalls_append]
      simp [geminiCalls, List.filterMap]
    · split
      · rw [geminiCalls_agentFinally, geminiCalls_append, geminiCalls_append]
        simp [geminiCalls, List.filterMap]
      · rw [geminiCalls_agentCatch, geminiCalls_append, geminiCalls_append]
        simp [geminiCalls, List.filterMap]

/-- C9: a run that acquires a sandbox binds the sandbox id into a DERIVED
copy of the caller's input — the backend is called with `enrichInput input0
sb.id`, whose context carries the id and agrees with the original
everywhere else — while the object the caller passed in is unchanged once
the run has settled. -/
theorem agent_input_not_mutated (definition : AgentDefinition)
    (deps : AgentDeps) (dm : DaytonaSandboxManager) (sb : Sandbox)
    (clock : Nat → Int) (input0 : AgentInput)
    (hreq : definition.requiresSandbox.getD false = true)
    (hday : deps.daytona = some dm)
    (hcreate : dm.createSandbox definition.sandboxConfig = Except.ok sb) :
    (runAgent definition deps clock input0).callerInputAfter = input0
    ∧ geminiCalls (runAgent definition deps clock input0).events =
        [(definition.systemPrompt, enrichInput input0 sb.id)]
    ∧ (enrichInput input0 sb.id).text = input0.text
    ∧ jsGet ((enrichInput input0 sb.id).context.getD []) "sandboxId" =
        JVal.str sb.id
    ∧ (∀ k, k ≠ "sandboxId" →
        jsGet ((enrichInput input0 sb.id).context.getD []) k =
          jsGet (input0.context.getD []) k) := by
  refine ⟨rfl, ?_, rfl, ?_, ?_⟩
  · simp only [runAgent, hreq, hday, hcreate]
    rw [geminiCalls_agentAfterAcquire]
    simp [geminiCalls, List.filterMap]
  · simp [enrichInput, jsGet_setKey_self]
  · intro k hk
    simp [enrichInput, jsGet_setKey_other _ _ _ _ hk]

/-- Witness for C9 at the concrete sandbox-using run. -/
theorem agent_input_not_mutated_witness :
    (runAgent defSandbox fullDeps zeroClock inputHi).callerInputAfter = inputHi
    ∧ geminiCalls (runAgent defSandbox fullDeps zeroClock inputHi).events =
        [("sp", enrichInput inputHi "sb1")] := by
  have h := agent_input_not_mutated defSandbox fullDeps daytonaOk ⟨"sb1"⟩
    zeroClock inputHi rfl rfl rfl
  exact ⟨h.1, h.2.1⟩
